import Mathlib

/-!
Verification of the DirectShow frame-grabber driver
(`src/src/DirectShowFrameGrabber/DirectShowFrameGrabber.cpp`).

The development shallowly embeds the three pieces of genuine logic of the
driver:

* the per-frame dispatch callback `DirectShowFrameGrabber::SampleCB`
  (lines 842-892) as `sampleCB`,
* the frame-processing routine `DirectShowFrameGrabber::handleFrame`
  (lines 758-839) as `handleFrame`,
* the device-selection loop (lines 434-500) as `selectDevice` and the
  format-negotiation loop (lines 546-572) of
  `DirectShowFrameGrabber::initGraph` as `negotiateFormat`.

Conventions of the embedding:

* the C++ `double` native timestamp is modelled as `Int`: the code only
  compares timestamps for equality (`Time == m_lastTime`), and the claims
  quantify over sequences of distinct / equal / increasing timestamps, so
  an integer timeline is faithful;
* C++ `int` / `LONG` counters are modelled as `Int`; the C++ `%` operator
  (truncation towards zero) is `Int.tmod`;
* external vision-library operations (`cv::resize`, `undistort`,
  `CvtColor`, `Clone`) are modelled as metadata transformers on a symbolic
  image record that tracks dimensions, the number of undistortion passes
  applied and whether the buffer was produced by a resize;
* COM `HRESULT` values are modelled by a small inductive; the callback's
  return value is part of the modelled result.
-/

namespace DSGrabber

/-- COM result codes that appear in the callback code: `S_OK`,
`E_NOTIMPL` (returned by `BufferCB`) and `E_POINTER`. -/
inductive HRESULT where
  | sOk
  | eNotImpl
  | ePointer
deriving DecidableEq

/-- Configuration of the grabber that the dispatch and processing code
reads: negotiated sample dimensions (`m_sampleWidth`, `m_sampleHeight`),
the frame-rate divisor (`m_divisor`), the desired output dimensions
(`m_desiredWidth`, `m_desiredHeight`) and the millisecond time offset
(`m_timeOffset`).  All are fixed after construction / graph
initialization. -/
structure GrabberCfg where
  sampleWidth : Int
  sampleHeight : Int
  divisor : Int
  desiredWidth : Int
  desiredHeight : Int
  timeOffset : Int
deriving DecidableEq

/-- Mutable dispatcher state: the `m_running` lifecycle flag, the frame
counter `m_nFrames` and the last native timestamp `m_lastTime`. -/
structure DispatchState where
  running : Bool
  nFrames : Int
  lastTime : Int
deriving DecidableEq

/-- Dispatcher state as set up by the constructor (`m_nFrames(0)`,
`m_lastTime(-1e10)`) before `start()` is called. -/
def initState : DispatchState :=
  { running := false, nFrames := 0, lastTime := -10000000000 }

/-- The observable inputs of one `SampleCB` invocation: the native
timestamp `Time`, the value returned by `pSample->GetSize()` and whether
`pSample->GetPointer` succeeds. -/
structure MediaSample where
  time : Int
  bufSize : Int
  pointerOk : Bool
deriving DecidableEq

/-- Model of `DirectShowFrameGrabber::SampleCB` (lines 842-892).  Returns
the updated dispatcher state, the sample handed to `handleFrame` (or
`none` when the frame is dropped) and the `HRESULT` returned to the
capture subsystem.  The C++ short-circuit in
`if ( !m_running || ( ++m_nFrames % m_divisor ) )` means the counter is
incremented only when the running test passes, which the nested `if`
below reproduces. -/
def sampleCB (g : GrabberCfg) (s : DispatchState) (samp : MediaSample) :
    DispatchState × Option MediaSample × HRESULT :=
  if samp.time = s.lastTime then
    (s, none, HRESULT.sOk)
  else
    let s1 : DispatchState := { s with lastTime := samp.time }
    if s1.running = false then
      (s1, none, HRESULT.sOk)
    else
      let s2 : DispatchState := { s1 with nFrames := s1.nFrames + 1 }
      if s2.nFrames.tmod g.divisor ≠ 0 then
        (s2, none, HRESULT.sOk)
      else if samp.bufSize < g.sampleWidth * g.sampleHeight * 3 then
        (s2, none, HRESULT.sOk)
      else if samp.pointerOk = false then
        (s2, none, HRESULT.sOk)
      else
        (s2, some samp, HRESULT.sOk)

/-- Runs `sampleCB` over a sequence of callback invocations, collecting
the samples that were forwarded to `handleFrame` in order. -/
def runSamples (g : GrabberCfg) : DispatchState → List MediaSample →
    DispatchState × List MediaSample
  | s, [] => (s, [])
  | s, x :: xs =>
    let r := sampleCB g s x
    let rest := runSamples g r.1 xs
    (rest.1,
      match r.2.1 with
      | some f => f :: rest.2
      | none => rest.2)

/-- Frames kept by the divisor cadence of the code: starting from counter
value `c`, the frame at position `i` (0-based) is kept exactly when the
incremented counter `c + i + 1` is divisible by `d`. -/
def everyNthFrom (d : Int) : Int → List MediaSample → List MediaSample
  | _, [] => []
  | c, x :: xs =>
    if (c + 1).tmod d = 0 then x :: everyNthFrom d (c + 1) xs
    else everyNthFrom d (c + 1) xs

/-- Modelled from the spec: the spec's stated cadence keeps exactly the
frames whose 0-based index is congruent to zero modulo the divisor.
Written from the spec's words for comparison with the code's
`everyNthFrom` cadence. -/
def specIndexForwarded (d : Int) : Int → List MediaSample → List MediaSample
  | _, [] => []
  | i, x :: xs =>
    if i.tmod d = 0 then x :: specIndexForwarded d (i + 1) xs
    else specIndexForwarded d (i + 1) xs

/-- A sample that passes the dispatcher's validity checks: buffer at
least `width * height * 3` bytes and a successful `GetPointer`. -/
def goodSample (g : GrabberCfg) (x : MediaSample) : Bool :=
  decide (g.sampleWidth * g.sampleHeight * 3 ≤ x.bufSize) && x.pointerOk

/-- Timestamps of the list are strictly increasing and the first one is
strictly above `t` (so every callback sees a fresh timestamp). -/
def freshChain (t : Int) : List MediaSample → Bool
  | [] => true
  | x :: xs => decide (t < x.time) && freshChain x.time xs

/-- Which output channels are connected when `handleFrame` runs: the raw
port `m_outPortRAW`, the color port `m_colorOutPort` and the luminance
port `m_outPort`. -/
structure PortState where
  rawConnected : Bool
  colorConnected : Bool
  outConnected : Bool
deriving DecidableEq

/-- Symbolic image record: dimensions plus the bookkeeping the claims are
about — how many times undistortion was applied to the pixel data and
whether the buffer came out of a resize. -/
structure ModelImage where
  width : Int
  height : Int
  channels : Nat
  undistortCount : Nat
  resized : Bool
deriving DecidableEq

/-- Model of `cv::resize` into a freshly allocated image of the desired
dimensions (lines 783-785): pixel content is rescaled, undistortion
history is inherited from the source. -/
def resizeTo (img : ModelImage) (w h : Int) : ModelImage :=
  { img with width := w, height := h, resized := true }

/-- Model of `m_undistorter->undistort`: one more undistortion pass over
the pixel data, dimensions unchanged. -/
def undistortImg (img : ModelImage) : ModelImage :=
  { img with undistortCount := img.undistortCount + 1 }

/-- Model of the BGR-to-grey conversion (either `cv::cvtColor` on the GPU
path or `CvtColor` on the CPU path, lines 820-830): single-channel output
derived from the source's pixel data. -/
def cvtGrayFrom (img : ModelImage) : ModelImage :=
  { img with channels := 1 }

/-- Model of `bufferImage.Clone()` (line 789). -/
def cloneImg (img : ModelImage) : ModelImage := img

/-- The images published by one `handleFrame` call on the three output
ports. -/
structure HandleFrameResult where
  rawOut : Option ModelImage
  colorOut : Option ModelImage
  greyOut : Option ModelImage
deriving DecidableEq

/-- Model of `DirectShowFrameGrabber::handleFrame` (lines 758-839).

Control flow of the source, in order:
* lines 779-786: if both desired dimensions are positive and the buffer
  exceeds either one, allocate `pColorImage` as the buffer resized to the
  desired dimensions;
* lines 788-790: if the raw port is connected, send a clone of the
  (unresized) buffer;
* lines 792-806: if the color port is connected, undistort `pColorImage`
  (or, when no resize happened, the raw buffer), clear the
  `bColorImageDistorted` flag and send the result;
* lines 809-838: if the luminance port is connected, convert the current
  `pColorImage` (or, when none exists, the raw buffer) to grey and, when
  `bColorImageDistorted` is still set, undistort the grey image before
  sending it.

The GPU-upload branches differ only in which library routine performs the
conversion, not in the undistortion bookkeeping, so they collapse in the
model. -/
def handleFrame (g : GrabberCfg) (ports : PortState)
    (bufferImage : ModelImage) : HandleFrameResult :=
  let pColorImage0 : Option ModelImage :=
    if 0 < g.desiredWidth ∧ 0 < g.desiredHeight ∧
        (g.desiredWidth < bufferImage.width ∨
          g.desiredHeight < bufferImage.height) then
      some (resizeTo bufferImage g.desiredWidth g.desiredHeight)
    else none
  let rawOut : Option ModelImage :=
    if ports.rawConnected then some (cloneImg bufferImage) else none
  let colorOut : Option ModelImage :=
    if ports.colorConnected then
      some (undistortImg (pColorImage0.getD bufferImage))
    else none
  let pColorImage : Option ModelImage :=
    if ports.colorConnected then colorOut else pColorImage0
  let bColorImageDistorted : Bool := !ports.colorConnected
  let greyOut : Option ModelImage :=
    if ports.outConnected then
      let grey := cvtGrayFrom (pColorImage.getD bufferImage)
      some (if bColorImageDistorted then undistortImg grey else grey)
    else none
  { rawOut := rawOut, colorOut := colorOut, greyOut := greyOut }

/-- An enumerated capture device as the selection loop sees it: friendly
name, device path, and whether the property reads
(`BindToStorage` / `Read`) succeeded for it. -/
structure DSDevice where
  name : String
  path : String
  readOk : Bool
deriving DecidableEq

/-- Bool version of `List.IsPrefix` on characters, matching character by
character. -/
def listPrefixB : List Char → List Char → Bool
  | [], _ => true
  | _ :: _, [] => false
  | a :: as, b :: bs => decide (a = b) && listPrefixB as bs

/-- Model of C `strstr`: does `needle` occur as a contiguous substring of
the haystack?  (`strstr` with an empty needle matches.) -/
def strstrList (needle : List Char) : List Char → Bool
  | [] => listPrefixB needle []
  | c :: rest => listPrefixB needle (c :: rest) || strstrList needle rest

/-- String-level wrapper of `strstrList`: `strstrB hay needle` is true
exactly when `strstr(hay, needle)` returns non-null. -/
def strstrB (hay needle : String) : Bool :=
  strstrList needle.toList hay.toList

/-- The condition under which the selection loop (lines 475-490) selects
a device and breaks: property reads succeeded, a desired name is
configured and occurs in the friendly name, and either no device path is
configured or the configured fragment occurs in the device path. -/
def devMatches (dName dPath : String) (d : DSDevice) : Bool :=
  d.readOk && !(dName = "") && strstrB d.name dName &&
    ((dPath = "") || strstrB d.path dPath)

/-- Model of the enumeration loop of `initGraph` (lines 437-496): `fb` is
the current `pSelectedMoniker`, set to the first enumerated device before
any property read, replaced (with `break`) by the first device satisfying
`devMatches`. -/
def selectLoop (dName dPath : String) :
    Option DSDevice → List DSDevice → Option DSDevice
  | fb, [] => fb
  | fb, d :: rest =>
    let fb1 : Option DSDevice :=
      match fb with
      | none => some d
      | some f => some f
    if d.readOk = true then
      if ¬ dName = "" ∧ strstrB d.name dName = true then
        if dPath = "" then some d
        else if strstrB d.path dPath = true then some d
        else selectLoop dName dPath fb1 rest
      else selectLoop dName dPath fb1 rest
    else selectLoop dName dPath fb1 rest

/-- Device selection of `initGraph`: run the loop with no moniker
selected; a `none` result is the `"No video capture device found"` throw
of line 500. -/
def selectDevice (dName dPath : String) (devs : List DSDevice) :
    Option DSDevice :=
  selectLoop dName dPath none devs

/-- An advertised format capability as the negotiation loop sees it:
the major/format type tests of line 552, the subtype test against
`MEDIASUBTYPE_RGB24`, the advertised dimensions and the advertised
`AvgTimePerFrame` (in 100 ns units).  The C++ `float` frame rate
`1e7 / AvgTimePerFrame` is modelled exactly over `ℚ`. -/
structure MediaCap where
  isVideo : Bool
  isVideoInfo : Bool
  subtypeRGB24 : Bool
  width : Int
  height : Int
  avgTimePerFrame : ℚ
deriving DecidableEq

/-- Frame rate of a capability as computed on line 555. -/
def capFps (c : MediaCap) : ℚ := 10000000 / c.avgTimePerFrame

/-- State of the negotiation loop: the capability of the last `SetFormat`
call and the `fCurrentFps` accumulator (initially 0). -/
structure NegState where
  selected : Option MediaCap
  fCurrentFps : ℚ
deriving DecidableEq

/-- One iteration of the capability loop (lines 547-572): skip
non-video-info capabilities; otherwise `SetFormat` the capability and
record its frame rate whenever the desired dimensions match (a desired
dimension ≤ 0 matches anything) and the capability is RGB24 or faster
than the last recorded rate. -/
def negotiateStep (dW dH : Int) (st : NegState) (c : MediaCap) : NegState :=
  if c.isVideo = false ∨ c.isVideoInfo = false then st
  else
    if (dW ≤ 0 ∨ c.width = dW) ∧ (dH ≤ 0 ∨ c.height = dH) ∧
        (c.subtypeRGB24 = true ∨ st.fCurrentFps < capFps c) then
      { selected := some c, fCurrentFps := capFps c }
    else st

/-- The whole negotiation loop over the advertised capability list. -/
def negotiateFormat (dW dH : Int) (caps : List MediaCap) : NegState :=
  caps.foldl (negotiateStep dW dH) { selected := none, fCurrentFps := 0 }

theorem sampleCB_lastTime (g : GrabberCfg) (s : DispatchState)
    (samp : MediaSample) : (sampleCB g s samp).1.lastTime = samp.time := by
  unfold sampleCB
  by_cases h : samp.time = s.lastTime
  · simp [h]
  · simp only [if_neg h]
    split
    · rfl
    · split
      · rfl
      · split
        · rfl
        · split <;> rfl

theorem runSamples_forwarded (g : GrabberCfg) (xs : List MediaSample) :
    ∀ s : DispatchState, s.running = true →
    (∀ x ∈ xs, goodSample g x = true) → freshChain s.lastTime xs = true →
    (runSamples g s xs).2 = everyNthFrom g.divisor s.nFrames xs := by
  induction xs with
  | nil => intro s _ _ _; rfl
  | cons x xs ih =>
    intro s hrun hgood hchain
    simp only [freshChain, Bool.and_eq_true, decide_eq_true_eq] at hchain
    obtain ⟨hlt, hchain⟩ := hchain
    have hx : goodSample g x = true := hgood x (List.mem_cons_self x xs)
    simp only [goodSample, Bool.and_eq_true, decide_eq_true_eq] at hx
    obtain ⟨hsize, hptr⟩ := hx
    have hne : ¬ (x.time = s.lastTime) := by
      intro h; rw [h] at hlt; exact lt_irrefl _ hlt
    have hsize' : ¬ (x.bufSize < g.sampleWidth * g.sampleHeight * 3) :=
      not_lt.mpr hsize
    have hgood' : ∀ y ∈ xs, goodSample g y = true := by
      intro y hy; exact hgood y (List.mem_cons_of_mem x hy)
    simp only [runSamples, sampleCB, if_neg hne, hrun]
    by_cases hmod : (s.nFrames + 1).tmod g.divisor = 0
    · simp only [hmod, ne_eq, not_true_eq_false, if_false, if_neg hsize',
        hptr, Bool.true_eq_false, if_false, if_true]
      have := ih { s with lastTime := x.time, nFrames := s.nFrames + 1 }
        hrun hgood' hchain
      simp only [everyNthFrom, if_pos hmod]
      simp_all
    · simp only [hmod, ne_eq, not_false_eq_true, if_true]
      have := ih { s with lastTime := x.time, nFrames := s.nFrames + 1 }
        hrun hgood' hchain
      simp only [everyNthFrom, if_neg hmod]
      simp_all

theorem everyNthFrom_one (c : Int) (xs : List MediaSample) :
    everyNthFrom 1 c xs = xs := by
  induction xs generalizing c with
  | nil => rfl
  | cons x xs ih => simp [everyNthFrom, Int.tmod_one, ih]

theorem selectLoop_cons (dName dPath : String) (fb : Option DSDevice)
    (d : DSDevice) (rest : List DSDevice) :
    selectLoop dName dPath fb (d :: rest) =
      if devMatches dName dPath d = true then some d
      else selectLoop dName dPath (some (fb.getD d)) rest := by
  cases fb <;>
    cases h1 : d.readOk <;>
    by_cases h2 : dName = "" <;>
    cases h3 : strstrB d.name dName <;>
    by_cases h4 : dPath = "" <;>
    cases h5 : strstrB d.path dPath <;>
    simp [selectLoop, devMatches, h1, h2, h3, h4, h5, Option.getD]

theorem selectLoop_eq (dName dPath : String) (devs : List DSDevice) :
    ∀ fb : Option DSDevice,
    selectLoop dName dPath fb devs =
      match devs.find? (devMatches dName dPath) with
      | some m => some m
      | none =>
        match fb with
        | some f => some f
        | none => devs.head? := by
  induction devs with
  | nil => intro fb; cases fb <;> rfl
  | cons d rest ih =>
    intro fb
    rw [selectLoop_cons]
    by_cases h : devMatches dName dPath d = true
    · simp [List.find?_cons_of_pos _ h, h]
    · have h' : devMatches dName dPath d = false := by
        cases hx : devMatches dName dPath d
        · rfl
        · exact absurd hx h
      rw [if_neg h, ih]
      rw [List.find?_cons_of_neg _ (by simp [h'])]
      cases hf : rest.find? (devMatches dName dPath) <;>
        cases fb <;> simp [Option.getD]

theorem selectDevice_eq (dName dPath : String) (devs : List DSDevice) :
    selectDevice dName dPath devs =
      match devs.find? (devMatches dName dPath) with
      | some m => some m
      | none => devs.head? :=
  selectLoop_eq dName dPath devs none

/-- C1 counterexample: with divisor 2 and two valid frames with fresh,
strictly increasing timestamps delivered in the running state, the code
forwards the frame at 0-based index 1 and drops the frame at index 0,
while the claim's cadence (index ≡ 0 mod divisor) predicts the exact
opposite, so the claimed set of forwarded frames is wrong. -/
theorem sampleCB_divisor_index_counterexample :
    (runSamples ⟨2, 2, 2, 320, 240, 0⟩
        { running := true, nFrames := 0, lastTime := -10000000000 }
        [⟨1, 12, true⟩, ⟨2, 12, true⟩]).2 = [⟨2, 12, true⟩] ∧
    specIndexForwarded 2 0 [⟨1, 12, true⟩, ⟨2, 12, true⟩] = [⟨1, 12, true⟩] ∧
    freshChain (-10000000000) [⟨1, 12, true⟩, ⟨2, 12, true⟩] = true ∧
    (∀ x ∈ [(⟨1, 12, true⟩ : MediaSample), ⟨2, 12, true⟩],
      goodSample ⟨2, 2, 2, 320, 240, 0⟩ x = true) := by
  decide

/-- C1 (amended): for every sequence of valid frames with strictly
increasing fresh native timestamps delivered while running, exactly those
frames whose 1-based count (counted after the running filter) is
divisible by the divisor — equivalently whose 0-based index is congruent
to divisor − 1 — are forwarded to the frame processor and the rest are
dropped; with divisor = 1 every frame is forwarded. -/
theorem sampleCB_divisor_cadence (g : GrabberCfg) (xs : List MediaSample)
    (hgood : ∀ x ∈ xs, goodSample g x = true)
    (hchain : freshChain (-10000000000) xs = true) :
    (runSamples g { running := true, nFrames := 0, lastTime := -10000000000 }
        xs).2 = everyNthFrom g.divisor 0 xs ∧
    (g.divisor = 1 →
      (runSamples g { running := true, nFrames := 0, lastTime := -10000000000 }
          xs).2 = xs) := by
  have h := runSamples_forwarded g xs
    { running := true, nFrames := 0, lastTime := -10000000000 } rfl hgood hchain
  refine ⟨h, fun h1 => ?_⟩
  rw [h, h1, everyNthFrom_one]

/-- Witness for `sampleCB_divisor_cadence` at divisor 2 with two concrete
valid frames. -/
theorem sampleCB_divisor_cadence_witness :
    (runSamples ⟨2, 2, 2, 320, 240, 0⟩
        { running := true, nFrames := 0, lastTime := -10000000000 }
        [⟨1, 12, true⟩, ⟨2, 12, true⟩]).2
      = everyNthFrom 2 0 [⟨1, 12, true⟩, ⟨2, 12, true⟩] ∧
    ((2 : Int) = 1 →
      (runSamples ⟨2, 2, 2, 320, 240, 0⟩
          { running := true, nFrames := 0, lastTime := -10000000000 }
          [⟨1, 12, true⟩, ⟨2, 12, true⟩]).2
        = [⟨1, 12, true⟩, ⟨2, 12, true⟩]) :=
  sampleCB_divisor_cadence ⟨2, 2, 2, 320, 240, 0⟩
    [⟨1, 12, true⟩, ⟨2, 12, true⟩] (by decide) (by decide)

/-- C2: a callback invocation whose native timestamp equals the one of
the immediately preceding invocation is discarded as a duplicate: the
dispatcher state (frame counter and last timestamp included) is left
exactly as the first invocation left it, no frame is forwarded, and
`S_OK` is returned — so the pair contributes exactly the first
invocation's effect. -/
theorem duplicate_timestamp_dropped (g : GrabberCfg) (s : DispatchState)
    (a b : MediaSample) (hdup : b.time = a.time) :
    sampleCB g (sampleCB g s a).1 b
      = ((sampleCB g s a).1, none, HRESULT.sOk) := by
  have h : b.time = (sampleCB g s a).1.lastTime := by
    rw [sampleCB_lastTime g s a, hdup]
  generalize (sampleCB g s a).1 = s1 at h ⊢
  simp [sampleCB, h]

/-- Witness for `duplicate_timestamp_dropped` with two concrete samples
carrying the same native timestamp. -/
theorem duplicate_timestamp_dropped_witness :
    sampleCB ⟨2, 2, 1, 320, 240, 0⟩
        (sampleCB ⟨2, 2, 1, 320, 240, 0⟩ initState ⟨5, 12, true⟩).1
        ⟨5, 99, true⟩
      = ((sampleCB ⟨2, 2, 1, 320, 240, 0⟩ initState ⟨5, 12, true⟩).1,
          none, HRESULT.sOk) :=
  duplicate_timestamp_dropped ⟨2, 2, 1, 320, 240, 0⟩ initState
    ⟨5, 12, true⟩ ⟨5, 99, true⟩ rfl

/-- C6: a callback invocation whose delivered buffer size is smaller than
negotiated width × height × 3 never hands a frame to `handleFrame`,
whatever the rest of the dispatcher state is. -/
theorem undersized_buffer_never_forwarded (g : GrabberCfg)
    (s : DispatchState) (samp : MediaSample)
    (hsmall : samp.bufSize < g.sampleWidth * g.sampleHeight * 3) :
    (sampleCB g s samp).2.1 = none := by
  simp only [sampleCB]
  split_ifs <;> simp_all

/-- Witness for `undersized_buffer_never_forwarded`: a 640 × 480 grabber
handed an 11-byte buffer. -/
theorem undersized_buffer_never_forwarded_witness :
    (0 : Int) < 11 ∧ (11 : Int) < 640 * 480 * 3 ∧
    (sampleCB ⟨640, 480, 1, 320, 240, 0⟩
        { running := true, nFrames := 0, lastTime := -10000000000 }
        ⟨1, 11, true⟩).2.1 = none :=
  ⟨by decide, by decide,
    undersized_buffer_never_forwarded ⟨640, 480, 1, 320, 240, 0⟩
      { running := true, nFrames := 0, lastTime := -10000000000 }
      ⟨1, 11, true⟩ (by decide)⟩

/-- C7: every invocation of the dispatch callback returns `S_OK` to the
capture subsystem, whichever per-frame failure branch it takes. -/
theorem sampleCB_always_returns_sOk (g : GrabberCfg) (s : DispatchState)
    (samp : MediaSample) : (sampleCB g s samp).2.2 = HRESULT.sOk := by
  simp only [sampleCB]
  split_ifs <;> rfl

/-- C10: a fresh (non-duplicate) timestamp arriving while the component
is not running still overwrites the stored last timestamp, while the
frame counter and the rest of the state are unchanged and no frame is
forwarded. -/
theorem stopped_fresh_frame_updates_lastTime (g : GrabberCfg)
    (s : DispatchState) (samp : MediaSample)
    (hfresh : samp.time ≠ s.lastTime) (hstop : s.running = false) :
    sampleCB g s samp
      = ({ s with lastTime := samp.time }, none, HRESULT.sOk) := by
  simp [sampleCB, hfresh, hstop]

/-- Witness for `stopped_fresh_frame_updates_lastTime` on the initial
(stopped) state and a concrete fresh sample. -/
theorem stopped_fresh_frame_updates_lastTime_witness :
    sampleCB ⟨2, 2, 1, 320, 240, 0⟩ initState ⟨7, 12, true⟩
      = ({ initState with lastTime := 7 }, none, HRESULT.sOk) :=
  stopped_fresh_frame_updates_lastTime ⟨2, 2, 1, 320, 240, 0⟩ initState
    ⟨7, 12, true⟩ (by decide) rfl

/-- C3: the negotiation loop's own comment says it prefers RGB24, but the
`subtype == RGB24 || fCurrentFps < fps` disjunction lets a later
size-matching non-RGB24 capability with a higher frame rate displace an
already-selected RGB24 capability of the same size: with capabilities
[RGB24 320x240 at 25 fps, non-RGB24 320x240 at 50 fps] the final
`SetFormat` target is the non-RGB24 capability. -/
theorem rgb24_displaced_by_faster_format :
    (negotiateFormat 320 240
        [⟨true, true, true, 320, 240, 400000⟩,
          ⟨true, true, false, 320, 240, 200000⟩]).selected
      = some ⟨true, true, false, 320, 240, 200000⟩ ∧
    (⟨true, true, false, 320, 240, 200000⟩ : MediaCap).subtypeRGB24 = false ∧
    (⟨true, true, true, 320, 240, 400000⟩ : MediaCap).subtypeRGB24 = true := by
  refine ⟨?_, rfl, rfl⟩
  norm_num [negotiateFormat, negotiateStep, capFps]

/-- C4 counterexample: with desired name "Cam" and desired path fragment
"p2", an enumeration whose first device matches nothing and whose second
device matches the name (but not the path) yields the first device — not
the first name-matching device the claim predicts. -/
theorem device_selection_counterexample :
    selectDevice "Cam" "p2" [⟨"Other", "x", true⟩, ⟨"Cam", "p1", true⟩]
      = some ⟨"Other", "x", true⟩ ∧
    strstrB "Other" "Cam" = false ∧
    strstrB "Cam" "Cam" = true := by
  decide

/-- C4 (amended): device selection picks the first enumerated device that
satisfies the full match condition — readable properties, a configured
desired name occurring in the friendly name, and (when a path fragment is
configured) the fragment occurring in the device path; when no device
satisfies it (in particular when no desired name is configured, or when a
name match exists but its path does not contain the configured fragment)
the first enumerated device is selected; selection fails with the
device-not-found error exactly when enumeration yields no device. -/
theorem device_selection_characterization (dName dPath : String)
    (devs : List DSDevice) :
    (selectDevice dName dPath devs =
      match devs.find? (devMatches dName dPath) with
      | some m => some m
      | none => devs.head?) ∧
    (selectDevice dName dPath devs = none ↔ devs = []) := by
  refine ⟨selectDevice_eq dName dPath devs, ?_⟩
  constructor
  · intro hnone
    cases devs with
    | nil => rfl
    | cons d rest =>
      rw [selectDevice_eq dName dPath (d :: rest)] at hnone
      cases hf : (d :: rest).find? (devMatches dName dPath) with
      | none => rw [hf] at hnone; simp at hnone
      | some m => rw [hf] at hnone; simp at hnone
  · intro hnil
    subst hnil
    rfl

/-- C9: an enumeration with at least one device never makes selection
fail: when no enumerated device satisfies the match condition, the first
enumerated device is silently selected as fallback; the device-not-found
error occurs only for an empty enumeration. -/
theorem device_selection_fallback (dName dPath : String) (d : DSDevice)
    (rest : List DSDevice)
    (hnomatch : (d :: rest).find? (devMatches dName dPath) = none) :
    selectDevice dName dPath (d :: rest) = some d ∧
    (∀ devs : List DSDevice, devs ≠ [] →
      (selectDevice dName dPath devs).isSome = true) ∧
    selectDevice dName dPath [] = none := by
  refine ⟨?_, ?_, rfl⟩
  · rw [selectDevice_eq dName dPath (d :: rest), hnomatch]
    rfl
  · intro devs hne
    cases devs with
    | nil => exact absurd rfl hne
    | cons e tail =>
      rw [selectDevice_eq dName dPath (e :: tail)]
      cases (e :: tail).find? (devMatches dName dPath) <;> simp

/-- Witness for `device_selection_fallback`: desired name "Cam" with an
enumeration whose single device does not match it. -/
theorem device_selection_fallback_witness :
    selectDevice "Cam" "" [⟨"Other", "x", true⟩] = some ⟨"Other", "x", true⟩ ∧
    (∀ devs : List DSDevice, devs ≠ [] →
      (selectDevice "Cam" "" devs).isSome = true) ∧
    selectDevice "Cam" "" [] = none :=
  device_selection_fallback "Cam" "" ⟨"Other", "x", true⟩ [] (by decide)

/-- C5: whenever the luminance port is connected and `handleFrame`
receives a raw (never yet undistorted) frame, the published luminance
image carries exactly one undistortion pass — independently of whether
the color port is connected and of whether the frame was resized. -/
theorem luminance_undistorted_once (g : GrabberCfg) (ports : PortState)
    (buffer : ModelImage) (hraw : buffer.undistortCount = 0)
    (hconn : ports.outConnected = true) :
    ∃ grey : ModelImage,
      (handleFrame g ports buffer).greyOut = some grey ∧
      grey.undistortCount = 1 := by
  by_cases hr : 0 < g.desiredWidth ∧ 0 < g.desiredHeight ∧
      (g.desiredWidth < buffer.width ∨ g.desiredHeight < buffer.height) <;>
    cases hc : ports.colorConnected <;>
    simp [handleFrame, hconn, hc, hr, undistortImg, cvtGrayFrom, resizeTo,
      hraw]

/-- Witness for `luminance_undistorted_once`: a raw 640 × 480 frame with
only the luminance port connected and resizing active. -/
theorem luminance_undistorted_once_witness :
    ∃ grey : ModelImage,
      (handleFrame ⟨640, 480, 1, 320, 240, 0⟩ ⟨false, false, true⟩
          ⟨640, 480, 3, 0, false⟩).greyOut = some grey ∧
      grey.undistortCount = 1 :=
  luminance_undistorted_once ⟨640, 480, 1, 320, 240, 0⟩
    ⟨false, false, true⟩ ⟨640, 480, 3, 0, false⟩ rfl rfl

/-- C8: with positive desired dimensions and the color port connected,
`handleFrame` publishes a color image that is resized to exactly the
desired dimensions when the raw frame exceeds either desired dimension,
and is passed through at its original dimensions, unresized, otherwise. -/
theorem color_resize_policy (g : GrabberCfg) (ports : PortState)
    (buffer : ModelImage) (hW : 0 < g.desiredWidth)
    (hH : 0 < g.desiredHeight) (hc : ports.colorConnected = true)
    (hraw : buffer.resized = false) :
    ∃ c : ModelImage,
      (handleFrame g ports buffer).colorOut = some c ∧
      ((g.desiredWidth < buffer.width ∨ g.desiredHeight < buffer.height) →
        c.width = g.desiredWidth ∧ c.height = g.desiredHeight ∧
          c.resized = true) ∧
      (¬ (g.desiredWidth < buffer.width ∨ g.desiredHeight < buffer.height) →
        c.width = buffer.width ∧ c.height = buffer.height ∧
          c.resized = false) := by
  by_cases hbig : g.desiredWidth < buffer.width ∨
      g.desiredHeight < buffer.height <;>
    simp [handleFrame, hc, hW, hH, hbig, undistortImg, resizeTo, hraw]

/-- Witness for `color_resize_policy`: the spec's two examples — a
640 × 480 frame against desired 320 × 240 comes out as 320 × 240, and a
320 × 240 frame against the same desired size is passed through
unresized. -/
theorem color_resize_policy_witness :
    (∃ c : ModelImage,
      (handleFrame ⟨640, 480, 1, 320, 240, 0⟩ ⟨false, true, false⟩
          ⟨640, 480, 3, 0, false⟩).colorOut = some c ∧
      (((320 : Int) < 640 ∨ (240 : Int) < 480) →
        c.width = 320 ∧ c.height = 240 ∧ c.resized = true) ∧
      (¬ ((320 : Int) < 640 ∨ (240 : Int) < 480) →
        c.width = 640 ∧ c.height = 480 ∧ c.resized = false)) ∧
    (∃ c : ModelImage,
      (handleFrame ⟨640, 480, 1, 320, 240, 0⟩ ⟨false, true, false⟩
          ⟨320, 240, 3, 0, false⟩).colorOut = some c ∧
      (((320 : Int) < 320 ∨ (240 : Int) < 240) →
        c.width = 320 ∧ c.height = 240 ∧ c.resized = true) ∧
      (¬ ((320 : Int) < 320 ∨ (240 : Int) < 240) →
        c.width = 320 ∧ c.height = 240 ∧ c.resized = false)) :=
  ⟨color_resize_policy ⟨640, 480, 1, 320, 240, 0⟩ ⟨false, true, false⟩
      ⟨640, 480, 3, 0, false⟩ (by decide) (by decide) rfl rfl,
    color_resize_policy ⟨640, 480, 1, 320, 240, 0⟩ ⟨false, true, false⟩
      ⟨320, 240, 3, 0, false⟩ (by decide) (by decide) rfl rfl⟩

end DSGrabber
